import Mathlib

/-!
Shallow embedding of `controllers/tls/manager.go` (capsule TLS reconciler).

The Go file reconciles the TLS trust secret: it decides whether the
certificate must be rotated (`shouldUpdateCertificate`), regenerates and
persists the material, extracts the CA bundle, propagates it to the two
admission-webhook configurations and the tenants CRD, stamps every sibling
operator pod with a freshness annotation, and finally computes the requeue
deadline.

Modelling conventions:
* Byte slices become `List Nat`; times and durations become `Int` seconds
  (the Go code computes the requeue from `Unix()` second values).
* The `pkg/cert` collaborator (not part of the source file) is an abstract
  oracle `CertEnv`; a pass is deterministic given the oracle.
* Kubernetes `Get` of a singleton resource becomes an `Option` field of the
  cluster state: `none` models NotFound.  `retry.RetryOnConflict` loops are
  absorbed: a mutation either commits or fails with an error string (the
  strings stand in for the Go error values).
* Go maps (`Secret.Data`, pod annotations, labels) become association
  lists; map insertion is remove-then-append, which is extensionally the
  map update (Go maps are unordered).
* The `errgroup` fan-out touches pairwise disjoint state (mutating
  webhook, validating webhook, CRD, pods), so it is embedded as applying
  every task's effect and surfacing the first error in a fixed order;
  `group.Wait` returns an error iff some task failed.
-/

namespace Capsule

/-- Byte slices (`[]byte`). -/
abbrev Bytes := List Nat

/-- `certificateExpirationThreshold = 3 * 24 * time.Hour`, in seconds. -/
def certificateExpirationThreshold : Int := 3 * 24 * 3600

/-- `certificateReconciliationThreshold = 4 * 24 * time.Hour`, in seconds. -/
def certificateReconciliationThreshold : Int := 4 * 24 * 3600

/-- `certificateValidity = 6 * 30 * 24 * time.Hour`, in seconds. -/
def certificateValidity : Int := 6 * 30 * 24 * 3600

/-- `PodUpdateAnnotationName = "capsule.clastix.io/updated"`. -/
def PodUpdateAnnotationName : String := "capsule.clastix.io/updated"

/-- `corev1.TLSCertKey`. -/
def tlsCertKey : String := "tls.crt"

/-- `corev1.TLSPrivateKeyKey`. -/
def tlsPrivateKeyKey : String := "tls.key"

/-- `corev1.ServiceAccountRootCAKey`. -/
def serviceAccountRootCAKey : String := "ca.crt"

/-- Association-list lookup for string-keyed byte maps (`Secret.Data`). -/
def getField : List (String × Bytes) → String → Option Bytes
  | [], _ => none
  | (k, v) :: rest, key => if k = key then some v else getField rest key

/-- Go map insertion `m[k] = v` on an association list: drop any entry for
`k`, then append `(k, v)`.  Extensionally the Go map update. -/
def setEntry (l : List (String × String)) (k v : String) : List (String × String) :=
  l.filter (fun kv => !decide (kv.1 = k)) ++ [(k, v)]

/-- The trust secret: abstract metadata plus the `Data` byte-field map. -/
structure Secret where
  meta : Nat
  data : List (String × Bytes)
deriving DecidableEq

/-- A parsed X.509 certificate; only `NotAfter` (Unix seconds) matters to
the reconciler. -/
structure Certificate where
  notAfter : Int
deriving DecidableEq

/-- An abstract private key handle. -/
structure PrivateKey where
  id : Nat
deriving DecidableEq

/-- An abstract certificate authority handle (`cert.CA`). -/
structure CA where
  id : Nat
deriving DecidableEq

/-- `cert.NewCertOpts(expiry, dnsName)`: requested leaf expiry (Unix
seconds) and the subject-alternative DNS name. -/
structure CertOpts where
  notAfter : Int
  dnsName : String
deriving DecidableEq

/-- Oracle for the external `pkg/cert` collaborator.  Each field mirrors
one function the manager calls; a pass is deterministic given the oracle. -/
structure CertEnv where
  generateCA : Except String CA
  generateCertificate : CA → CertOpts → Except String (Bytes × Bytes)
  caCertificatePem : CA → Bytes
  parseCertKey : Bytes → Bytes → Option (Certificate × PrivateKey)
  validateCertificate : Certificate → PrivateKey → Int → Bool
  getCertificateFromBytes : Bytes → Option Certificate

/-- `configuration.Configuration`, restricted to what the manager reads. -/
structure Configuration where
  generateCertificates : Bool
  tlsSecretName : String
  validatingWebhookConfigurationName : String
  mutatingWebhookConfigurationName : String
  tenantCRDName : String
deriving DecidableEq

/-- The reconciler's own fields used by the pass: its namespace and the
Capsule configuration. -/
structure Reconciler where
  ns : String
  configuration : Configuration
deriving DecidableEq

/-- `admissionregistrationv1.ServiceReference` /
`apiextensionsv1.ServiceReference`. -/
structure ServiceReference where
  ns : String
  name : String
  path : Option String
  port : Option Int
deriving DecidableEq

/-- Webhook client config: either an internal service reference or an
external URL, plus the CA bundle. -/
structure WebhookClientConfig where
  service : Option ServiceReference
  url : Option String
  caBundle : Bytes
deriving DecidableEq

/-- One admission-webhook entry; `otherFields` abstracts every field the
manager never touches (rules, failure policy, ...). -/
structure Webhook where
  name : String
  clientConfig : WebhookClientConfig
  otherFields : Nat
deriving DecidableEq

/-- `admissionregistrationv1.ValidatingWebhookConfiguration`. -/
structure ValidatingWebhookConfiguration where
  webhooks : List Webhook
  otherMeta : Nat
deriving DecidableEq

/-- `admissionregistrationv1.MutatingWebhookConfiguration`. -/
structure MutatingWebhookConfiguration where
  webhooks : List Webhook
  otherMeta : Nat
deriving DecidableEq

/-- `apiextensionsv1.WebhookClientConfig` inside the CRD conversion block. -/
structure CRDWebhookClientConfig where
  service : Option ServiceReference
  caBundle : Bytes
deriving DecidableEq

/-- `apiextensionsv1.WebhookConversion`. -/
structure WebhookConversion where
  clientConfig : Option CRDWebhookClientConfig
  conversionReviewVersions : List String
deriving DecidableEq

/-- `apiextensionsv1.CustomResourceConversion`. -/
structure CustomResourceConversion where
  strategy : String
  webhook : Option WebhookConversion
deriving DecidableEq

/-- The tenants CRD; `otherSpec` abstracts the rest of its spec. -/
structure CustomResourceDefinition where
  conversion : Option CustomResourceConversion
  otherSpec : Nat
deriving DecidableEq

/-- One operator pod: identity, labels, annotations, and everything else
the manager never touches. -/
structure Pod where
  ns : String
  name : String
  labels : List (String × String)
  annotations : List (String × String)
  otherFields : Nat
deriving DecidableEq

/-- The slice of the cluster the reconciler reads and writes.  `none`
models NotFound on `Get`.  `leaderPod` is the pod named by the process
hostname in `$NAMESPACE` that `getOperatorPods` fetches first. -/
structure ClusterState where
  certSecret : Option Secret
  validating : Option ValidatingWebhookConfiguration
  mutating : Option MutatingWebhookConfiguration
  crd : Option CustomResourceDefinition
  leaderPod : Option Pod
  pods : List Pod
deriving DecidableEq

/-- Result of one reconciliation pass: final cluster state, the requeue
duration (`RequeueAfter` seconds, `none` when the pass returns the empty
`reconcile.Result{}`), and the surfaced error, if any. -/
structure PassResult where
  state : ClusterState
  requeueAfter : Option Int
  error : Option String
deriving DecidableEq

/-- `Reconciler.shouldUpdateCertificate`: skip when generation is disabled;
rotate when the CA field is absent, the cert/key pair fails to parse, or
validation against the expiration threshold fails. -/
def shouldUpdateCertificate (env : CertEnv) (cfg : Configuration) (secret : Secret) : Bool :=
  if !cfg.generateCertificates then
    false
  else if (getField secret.data serviceAccountRootCAKey).isNone then
    true
  else
    match env.parseCertKey ((getField secret.data tlsCertKey).getD [])
        ((getField secret.data tlsPrivateKeyKey).getD []) with
    | none => true
    | some (c, k) => !env.validateCertificate c k certificateExpirationThreshold

/-- The DNS name handed to `cert.NewCertOpts`:
`fmt.Sprintf("capsule-webhook-service.%s.svc", r.Namespace)`. -/
def webhookServiceDNS (ns : String) : String :=
  "capsule-webhook-service." ++ ns ++ ".svc"

/-- The rotation block of `Reconcile` (lines 88-125): when rotation is
required, generate CA and leaf and replace the secret's `Data` with the
three fields, preserving metadata via `CreateOrUpdate` on the same
`ObjectMeta`; any generation failure aborts before anything is written. -/
def rotateStep (env : CertEnv) (cfg : Configuration) (ns : String) (now : Int)
    (s : Secret) : Except String Secret :=
  if shouldUpdateCertificate env cfg s then
    match env.generateCA with
    | .error e => .error e
    | .ok ca =>
      match env.generateCertificate ca ⟨now + certificateValidity, webhookServiceDNS ns⟩ with
      | .error e => .error e
      | .ok (crt, key) =>
        .ok { s with data :=
          [(tlsCertKey, crt), (tlsPrivateKeyKey, key),
           (serviceAccountRootCAKey, env.caCertificatePem ca)] }
  else
    .ok s

/-- The per-entry mutation of the webhook loops: overwrite `CABundle` only
when the entry references an internal service. -/
def bumpWebhook (caBundle : Bytes) (w : Webhook) : Webhook :=
  if w.clientConfig.service.isSome then
    { w with clientConfig := { w.clientConfig with caBundle := caBundle } }
  else
    w

/-- `Reconciler.updateValidatingWebhookConfiguration`: fetch (NotFound is
an error), update the CA bundle of every internal-service entry, submit. -/
def updateValidatingWebhookConfiguration (caBundle : Bytes) :
    Option ValidatingWebhookConfiguration → Except String ValidatingWebhookConfiguration
  | none => .error "cannot retrieve ValidatingWebhookConfiguration"
  | some vw => .ok { vw with webhooks := vw.webhooks.map (bumpWebhook caBundle) }

/-- `Reconciler.updateMutatingWebhookConfiguration`: identical rule on the
mutating configuration. -/
def updateMutatingWebhookConfiguration (caBundle : Bytes) :
    Option MutatingWebhookConfiguration → Except String MutatingWebhookConfiguration
  | none => .error "cannot retrieve MutatingWebhookConfiguration"
  | some mw => .ok { mw with webhooks := mw.webhooks.map (bumpWebhook caBundle) }

/-- The conversion block `updateCustomResourceDefinition` installs:
strategy Webhook, service `capsule-webhook-service` in the reconciler's
namespace at `/convert:443`, the current bundle, and the two review
versions. -/
def conversionBlock (ns : String) (caBundle : Bytes) : CustomResourceConversion :=
  { strategy := "Webhook"
    webhook := some
      { clientConfig := some
          { service := some { ns := ns, name := "capsule-webhook-service",
                              path := some "/convert", port := some 443 }
            caBundle := caBundle }
        conversionReviewVersions := ["v1alpha1", "v1beta1"] } }

/-- `Reconciler.updateCustomResourceDefinition`: fetch the tenants CRD
(NotFound is an error) and overwrite `Spec.Conversion` with the fixed
conversion block. -/
def updateCustomResourceDefinition (ns : String) (caBundle : Bytes) :
    Option CustomResourceDefinition → Except String CustomResourceDefinition
  | none => .error "cannot retrieve CustomResourceDefinition"
  | some crd => .ok { crd with conversion := some (conversionBlock ns caBundle) }

/-- Does pod `p` have the given namespace and name? -/
def podMatches (tns tname : String) (p : Pod) : Bool :=
  decide (p.ns = tns) && decide (p.name = tname)

/-- Stamp a pod's freshness annotation with (the formatted) current time. -/
def stampPod (now : Int) (p : Pod) : Pod :=
  { p with annotations := setEntry p.annotations PodUpdateAnnotationName (toString now) }

/-- `Reconciler.updateOperatorPod`: re-read the latest version of the pod
by namespace/name and set its freshness annotation to the current
timestamp.  When the pod no longer exists the Go code tolerates NotFound
on the read but then submits an empty object, which the API rejects; that
path is an error here. -/
def updateOperatorPod (now : Int) (pods : List Pod) (target : Pod) :
    Except String (List Pod) :=
  if pods.any (podMatches target.ns target.name) then
    .ok (pods.map (fun p => if podMatches target.ns target.name p then stampPod now p else p))
  else
    .error "cannot update pod"

/-- Does `p` carry every label of the selector (`client.MatchingLabels`)? -/
def labelsMatch (sel : List (String × String)) (p : Pod) : Bool :=
  sel.all (fun kv => decide (kv ∈ p.labels))

/-- `Reconciler.getOperatorPods`: fetch the leader pod (own hostname in
`$NAMESPACE`; failure to find it is an error, "probably running in out of
the cluster mode"), then list every pod sharing its labels. -/
def getOperatorPods (st : ClusterState) : Except String (List Pod) :=
  match st.leaderPod with
  | none => .error "cannot retrieve the leader Pod"
  | some leader => .ok (st.pods.filter (labelsMatch leader.labels))

/-- Run the fleet-notification updates of the `errgroup` (one
`updateOperatorPod` task per discovered pod) over the pod store,
collecting the first error; a failed task leaves the store as the other
tasks produced it. -/
def updatePods (now : Int) (targets : List Pod) (pods : List Pod) :
    List Pod × Option String :=
  targets.foldl
    (fun acc tgt =>
      match updateOperatorPod now acc.1 tgt with
      | .ok ps => (ps, acc.2)
      | .error e => (acc.1, acc.2 <|> some e))
    (pods, none)

/-- Apply one resource update task: on success the store holds the
committed object; on failure it is untouched and the error is recorded. -/
def applyRes {α : Type} (cur : Option α) : Except String α → Option α × Option String
  | .ok a => (some a, none)
  | .error e => (cur, some e)

/-- First error of the joined `errgroup` tasks (`group.Wait`). -/
def firstErr (l : List (Option String)) : Option String :=
  (l.filterMap id).head?

/-- The `errgroup` fan-out of `Reconcile` (lines 142-165): run the three
propagation updates and the per-pod fleet-notification updates over their
pairwise disjoint state slices and join, returning the resulting cluster
state and the first task error (`group.Wait`). -/
def fanOut (r : Reconciler) (now : Int) (caBundle : Bytes)
    (targets : List Pod) (st1 : ClusterState) : ClusterState × Option String :=
  ({ st1 with
      mutating := (applyRes st1.mutating (updateMutatingWebhookConfiguration caBundle st1.mutating)).1,
      validating := (applyRes st1.validating (updateValidatingWebhookConfiguration caBundle st1.validating)).1,
      crd := (applyRes st1.crd (updateCustomResourceDefinition r.ns caBundle st1.crd)).1,
      pods := (updatePods now targets st1.pods).1 },
   firstErr
     [(applyRes st1.mutating (updateMutatingWebhookConfiguration caBundle st1.mutating)).2,
      (applyRes st1.validating (updateValidatingWebhookConfiguration caBundle st1.validating)).2,
      (applyRes st1.crd (updateCustomResourceDefinition r.ns caBundle st1.crd)).2,
      (updatePods now targets st1.pods).2])

/-- The tail of `Reconcile` from the `errgroup` fan-out on (lines
142-182): fan out, join with the first error, then compute the requeue
deadline when generation is enabled. -/
def joinPhase (env : CertEnv) (r : Reconciler) (now : Int) (s1 : Secret) (caBundle : Bytes)
    (targets : List Pod) (st1 : ClusterState) : PassResult :=
  match (fanOut r now caBundle targets st1).2 with
  | some e => ⟨(fanOut r now caBundle targets st1).1, none, some e⟩
  | none =>
    if r.configuration.generateCertificates then
      match env.getCertificateFromBytes ((getField s1.data tlsCertKey).getD []) with
      | none => ⟨(fanOut r now caBundle targets st1).1, none, some "cannot parse certificate"⟩
      | some c =>
        ⟨(fanOut r now caBundle targets st1).1,
         some ((c.notAfter - now) - certificateReconciliationThreshold), none⟩
    else
      ⟨(fanOut r now caBundle targets st1).1, none, none⟩

/-- `Reconciler.Reconcile`, lines 77-183: fetch the secret, maybe rotate,
extract the CA bundle (error when the field is missing), discover the
operator pods (error aborts the pass), then run the fan-out/join phase. -/
def reconcile (env : CertEnv) (r : Reconciler) (now : Int) (st : ClusterState) : PassResult :=
  match st.certSecret with
  | none => ⟨st, none, some "cannot get secret"⟩
  | some s =>
    match rotateStep env r.configuration r.ns now s with
    | .error e => ⟨st, none, some e⟩
    | .ok s1 =>
      match getField s1.data serviceAccountRootCAKey with
      | none =>
        ⟨{ st with certSecret := some s1 }, none,
         some ("missing " ++ serviceAccountRootCAKey ++ " field in "
          ++ r.configuration.tlsSecretName ++ " secret")⟩
      | some caBundle =>
        match getOperatorPods { st with certSecret := some s1 } with
        | .error e => ⟨{ st with certSecret := some s1 }, none, some e⟩
        | .ok targets => joinPhase env r now s1 caBundle targets { st with certSecret := some s1 }

/-! ## C1: the rotation decision -/

/-- C1: `shouldUpdateCertificate` returns false unconditionally when
auto-generation of certificates is disabled; when it is enabled the
decision returns true exactly when the stored secret lacks the
CA-certificate field, or the stored certificate/key pair fails to parse,
or the pair fails validation against the expiration threshold, and false
otherwise. -/
theorem shouldUpdateCertificate_decision (env : CertEnv) (cfg : Configuration) (s : Secret) :
    (cfg.generateCertificates = false → shouldUpdateCertificate env cfg s = false) ∧
    (cfg.generateCertificates = true →
      (shouldUpdateCertificate env cfg s = true ↔
        getField s.data serviceAccountRootCAKey = none ∨
        env.parseCertKey ((getField s.data tlsCertKey).getD [])
          ((getField s.data tlsPrivateKeyKey).getD []) = none ∨
        (∃ ck, env.parseCertKey ((getField s.data tlsCertKey).getD [])
            ((getField s.data tlsPrivateKeyKey).getD []) = some ck ∧
          env.validateCertificate ck.1 ck.2 certificateExpirationThreshold = false))) := by
  constructor
  · intro h
    simp [shouldUpdateCertificate, h]
  · intro h
    simp only [shouldUpdateCertificate, h, Bool.not_true, Bool.false_eq_true, if_false]
    rcases hca : getField s.data serviceAccountRootCAKey with _ | b
    · simp [hca]
    · simp only [hca, Option.isNone_some, Bool.false_eq_true, if_false, reduceCtorEq,
        false_or]
      rcases hp : env.parseCertKey ((getField s.data tlsCertKey).getD [])
          ((getField s.data tlsPrivateKeyKey).getD []) with _ | ⟨c, k⟩
      · simp
      · simp [Bool.not_eq_true']

/-- Oracle instance for the C1 witness: parsing always fails. -/
def envC1 : CertEnv :=
  { generateCA := .ok ⟨0⟩
    generateCertificate := fun _ _ => .ok ([1], [2])
    caCertificatePem := fun _ => [3]
    parseCertKey := fun _ _ => none
    validateCertificate := fun _ _ _ => true
    getCertificateFromBytes := fun _ => none }

/-- Configuration with auto-generation disabled, for the C1 witness. -/
def cfgOffC1 : Configuration := ⟨false, "capsule-tls", "vw", "mw", "tenants"⟩

/-- Configuration with auto-generation enabled, for the C1 witness. -/
def cfgOnC1 : Configuration := ⟨true, "capsule-tls", "vw", "mw", "tenants"⟩

/-- Witness for C1 at concrete inputs: disabled configuration yields
false on an empty secret; enabled configuration yields true on it. -/
theorem shouldUpdateCertificate_decision_witness :
    shouldUpdateCertificate envC1 cfgOffC1 ⟨0, []⟩ = false ∧
    shouldUpdateCertificate envC1 cfgOnC1 ⟨0, []⟩ = true :=
  ⟨(shouldUpdateCertificate_decision envC1 cfgOffC1 ⟨0, []⟩).1 rfl,
   ((shouldUpdateCertificate_decision envC1 cfgOnC1 ⟨0, []⟩).2 rfl).mpr
     (Or.inl (by decide))⟩

/-! ## C5: selective endpoint update in the webhook configurations -/

/-- An internal-service entry gets exactly its CA bundle overwritten. -/
theorem bumpWebhook_internal (b : Bytes) (w : Webhook)
    (h : w.clientConfig.service.isSome = true) :
    bumpWebhook b w = { w with clientConfig := { w.clientConfig with caBundle := b } } := by
  simp [bumpWebhook, h]

/-- An external-URL entry is left unchanged. -/
theorem bumpWebhook_external (b : Bytes) (w : Webhook)
    (h : w.clientConfig.service = none) :
    bumpWebhook b w = w := by
  simp [bumpWebhook, h]

/-- C5: for both admission-webhook configurations, the propagation update
overwrites the CA-bundle field of exactly the endpoint entries that
reference the internal service; entries referencing an external URL are
unchanged, and no other field of any entry (and no other field of the
configuration) is modified. -/
theorem webhookConfigurations_selective_update (b : Bytes) :
    (∀ vw vw' : ValidatingWebhookConfiguration,
      updateValidatingWebhookConfiguration b (some vw) = .ok vw' →
      vw'.otherMeta = vw.otherMeta ∧ vw'.webhooks.length = vw.webhooks.length ∧
      ∀ (i : Nat) (w : Webhook), vw.webhooks[i]? = some w →
        (w.clientConfig.service.isSome = true →
          vw'.webhooks[i]? =
            some { w with clientConfig := { w.clientConfig with caBundle := b } }) ∧
        (w.clientConfig.service = none → vw'.webhooks[i]? = some w)) ∧
    (∀ mw mw' : MutatingWebhookConfiguration,
      updateMutatingWebhookConfiguration b (some mw) = .ok mw' →
      mw'.otherMeta = mw.otherMeta ∧ mw'.webhooks.length = mw.webhooks.length ∧
      ∀ (i : Nat) (w : Webhook), mw.webhooks[i]? = some w →
        (w.clientConfig.service.isSome = true →
          mw'.webhooks[i]? =
            some { w with clientConfig := { w.clientConfig with caBundle := b } }) ∧
        (w.clientConfig.service = none → mw'.webhooks[i]? = some w)) := by
  constructor
  · intro vw vw' h
    simp only [updateValidatingWebhookConfiguration, Except.ok.injEq] at h
    subst h
    refine ⟨rfl, by simp, ?_⟩
    intro i w hw
    constructor
    · intro hs
      simp [List.getElem?_map, hw, bumpWebhook_internal b w hs]
    · intro hs
      simp [List.getElem?_map, hw, bumpWebhook_external b w hs]
  · intro mw mw' h
    simp only [updateMutatingWebhookConfiguration, Except.ok.injEq] at h
    subst h
    refine ⟨rfl, by simp, ?_⟩
    intro i w hw
    constructor
    · intro hs
      simp [List.getElem?_map, hw, bumpWebhook_internal b w hs]
    · intro hs
      simp [List.getElem?_map, hw, bumpWebhook_external b w hs]

/-- Internal-service entry for the C5 witness. -/
def wInternalC5 : Webhook := ⟨"a", ⟨some ⟨"n", "s", none, none⟩, none, []⟩, 7⟩

/-- External-URL entry for the C5 witness. -/
def wExternalC5 : Webhook := ⟨"b", ⟨none, some "https://ext", [9]⟩, 8⟩

/-- Mixed validating configuration for the C5 witness. -/
def vwC5 : ValidatingWebhookConfiguration := ⟨[wInternalC5, wExternalC5], 5⟩

/-- Mixed mutating configuration for the C5 witness. -/
def mwC5 : MutatingWebhookConfiguration := ⟨[wInternalC5, wExternalC5], 6⟩

/-- Expected validating configuration after propagating bundle `[1]`. -/
def vwExpC5 : ValidatingWebhookConfiguration :=
  ⟨[⟨"a", ⟨some ⟨"n", "s", none, none⟩, none, [1]⟩, 7⟩, wExternalC5], 5⟩

/-- Expected mutating configuration after propagating bundle `[1]`. -/
def mwExpC5 : MutatingWebhookConfiguration :=
  ⟨[⟨"a", ⟨some ⟨"n", "s", none, none⟩, none, [1]⟩, 7⟩, wExternalC5], 6⟩

/-- Witness for C5 on a mixed two-entry configuration: the internal entry
receives bundle `[1]`, the external entry is returned unchanged, in both
configurations. -/
theorem webhookConfigurations_selective_update_witness :
    vwExpC5.webhooks[0]? = some ⟨"a", ⟨some ⟨"n", "s", none, none⟩, none, [1]⟩, 7⟩ ∧
    vwExpC5.webhooks[1]? = some wExternalC5 ∧
    mwExpC5.webhooks[0]? = some ⟨"a", ⟨some ⟨"n", "s", none, none⟩, none, [1]⟩, 7⟩ ∧
    mwExpC5.webhooks[1]? = some wExternalC5 := by
  have hv := (webhookConfigurations_selective_update [1]).1 vwC5 vwExpC5 rfl
  have hm := (webhookConfigurations_selective_update [1]).2 mwC5 mwExpC5 rfl
  refine ⟨?_, ?_, ?_, ?_⟩
  · exact (hv.2.2 0 wInternalC5 (by decide)).1 (by decide)
  · exact (hv.2.2 1 wExternalC5 (by decide)).2 (by decide)
  · exact (hm.2.2 0 wInternalC5 (by decide)).1 (by decide)
  · exact (hm.2.2 1 wExternalC5 (by decide)).2 (by decide)

/-! ## C7: the CRD conversion block -/

/-- C7: the custom-resource-definition update always installs conversion
strategy `Webhook`, service `capsule-webhook-service` in the reconciler's
namespace at path `/convert` and port `443`, the current CA bundle, and
review versions `["v1alpha1", "v1beta1"]`, leaving the rest of the CRD
unchanged. -/
theorem updateCustomResourceDefinition_conversion (ns : String) (b : Bytes)
    (crd crd' : CustomResourceDefinition)
    (h : updateCustomResourceDefinition ns b (some crd) = .ok crd') :
    crd'.otherSpec = crd.otherSpec ∧
    crd'.conversion = some
      { strategy := "Webhook"
        webhook := some
          { clientConfig := some
              { service := some { ns := ns, name := "capsule-webhook-service",
                                  path := some "/convert", port := some 443 }
                caBundle := b }
            conversionReviewVersions := ["v1alpha1", "v1beta1"] } } := by
  simp only [updateCustomResourceDefinition, Except.ok.injEq] at h
  subst h
  exact ⟨rfl, rfl⟩

/-- Witness for C7: updating a CRD with no conversion block installs the
full webhook conversion block for namespace `"capsule-system"` and bundle
`[4]`. -/
theorem updateCustomResourceDefinition_conversion_witness :
    ∃ crd' : CustomResourceDefinition,
      crd'.otherSpec = 3 ∧
      crd'.conversion = some
        { strategy := "Webhook"
          webhook := some
            { clientConfig := some
                { service := some { ns := "capsule-system", name := "capsule-webhook-service",
                                    path := some "/convert", port := some 443 }
                  caBundle := [4] }
              conversionReviewVersions := ["v1alpha1", "v1beta1"] } } := by
  refine ⟨{ conversion := some (conversionBlock "capsule-system" [4]), otherSpec := 3 }, ?_⟩
  exact updateCustomResourceDefinition_conversion "capsule-system" [4] ⟨none, 3⟩ _ rfl

/-! ## Shared reconcile-path lemmas -/

/-- When the decision is negative, the rotation block leaves the secret
alone and succeeds. -/
theorem rotateStep_skip (env : CertEnv) (cfg : Configuration) (ns : String) (now : Int)
    (s : Secret) (h : shouldUpdateCertificate env cfg s = false) :
    rotateStep env cfg ns now s = .ok s := by
  simp [rotateStep, h]

/-- The fan-out never touches the trust secret or the leader pod. -/
theorem fanOut_frame (r : Reconciler) (now : Int) (b : Bytes) (targets : List Pod)
    (st1 : ClusterState) :
    (fanOut r now b targets st1).1.certSecret = st1.certSecret ∧
    (fanOut r now b targets st1).1.leaderPod = st1.leaderPod :=
  ⟨rfl, rfl⟩

/-- The join phase never touches the trust secret. -/
theorem joinPhase_certSecret (env : CertEnv) (r : Reconciler) (now : Int) (s1 : Secret)
    (b : Bytes) (targets : List Pod) (st1 : ClusterState) :
    (joinPhase env r now s1 b targets st1).state.certSecret = st1.certSecret := by
  unfold joinPhase
  split
  · exact (fanOut_frame r now b targets st1).1
  · split
    · split
      · exact (fanOut_frame r now b targets st1).1
      · exact (fanOut_frame r now b targets st1).1
    · exact (fanOut_frame r now b targets st1).1

/-! ## C10: missing CA field after the rotation decision -/

/-- C10: when, after the rotation decision, the trust secret still lacks
the CA-certificate field (the decision was negative and the field is
absent), `Reconcile` returns an error naming the missing field and
performs no propagation or fleet-notification update: the cluster state
is returned unchanged. -/
theorem reconcile_missing_ca_aborts (env : CertEnv) (r : Reconciler) (now : Int)
    (st : ClusterState) (s : Secret)
    (h1 : st.certSecret = some s)
    (h2 : shouldUpdateCertificate env r.configuration s = false)
    (h3 : getField s.data serviceAccountRootCAKey = none) :
    reconcile env r now st =
      ⟨st, none, some ("missing " ++ serviceAccountRootCAKey ++ " field in "
        ++ r.configuration.tlsSecretName ++ " secret")⟩ := by
  unfold reconcile
  rw [h1]
  simp only [rotateStep_skip env r.configuration r.ns now s h2, h3]
  rw [← h1]

/-- Oracle instance for the C10 witness. -/
def envC10 : CertEnv :=
  ⟨.ok ⟨0⟩, fun _ _ => .ok ([1], [2]), fun _ => [3], fun _ _ => none,
   fun _ _ _ => true, fun _ => none⟩

/-- Reconciler with auto-generation disabled, for the C10 witness. -/
def rC10 : Reconciler := ⟨"capsule-system", ⟨false, "capsule-tls", "vw", "mw", "tenants"⟩⟩

/-- Cluster state whose trust secret has no data fields, for C10. -/
def stC10 : ClusterState :=
  ⟨some ⟨0, []⟩, some ⟨[], 0⟩, some ⟨[], 0⟩, some ⟨none, 0⟩, none, []⟩

/-- Witness for C10: with generation disabled and an empty secret, the
pass aborts with the missing-field error and the state is untouched. -/
theorem reconcile_missing_ca_aborts_witness :
    reconcile envC10 rC10 0 stC10 =
      ⟨stC10, none, some ("missing " ++ serviceAccountRootCAKey ++ " field in "
        ++ rC10.configuration.tlsSecretName ++ " secret")⟩ :=
  reconcile_missing_ca_aborts envC10 rC10 0 stC10 ⟨0, []⟩ rfl (by decide) rfl

/-! ## C3: fleet-discovery failure -/

/-- Counterexample to C3 as stated: at a concrete state whose leader pod
cannot be identified, the pass aborts with an error and performs no
propagation at all — the validating configuration's internal entry keeps
its stale (empty) bundle even though the secret's bundle is `[7]`. -/
theorem reconcile_discovery_failure_counterexample :
    (reconcile ⟨.ok ⟨0⟩, fun _ _ => .ok ([1], [2]), fun _ => [3], fun _ _ => none,
        fun _ _ _ => true, fun _ => none⟩
      ⟨"n", ⟨false, "capsule-tls", "vw", "mw", "tenants"⟩⟩ 0
      ⟨some ⟨0, [(serviceAccountRootCAKey, [7])]⟩,
       some ⟨[⟨"a", ⟨some ⟨"x", "y", none, none⟩, none, []⟩, 0⟩], 0⟩,
       some ⟨[], 0⟩, some ⟨none, 0⟩, none, []⟩).error ≠ none ∧
    (reconcile ⟨.ok ⟨0⟩, fun _ _ => .ok ([1], [2]), fun _ => [3], fun _ _ => none,
        fun _ _ _ => true, fun _ => none⟩
      ⟨"n", ⟨false, "capsule-tls", "vw", "mw", "tenants"⟩⟩ 0
      ⟨some ⟨0, [(serviceAccountRootCAKey, [7])]⟩,
       some ⟨[⟨"a", ⟨some ⟨"x", "y", none, none⟩, none, []⟩, 0⟩], 0⟩,
       some ⟨[], 0⟩, some ⟨none, 0⟩, none, []⟩).state =
      ⟨some ⟨0, [(serviceAccountRootCAKey, [7])]⟩,
       some ⟨[⟨"a", ⟨some ⟨"x", "y", none, none⟩, none, []⟩, 0⟩], 0⟩,
       some ⟨[], 0⟩, some ⟨none, 0⟩, none, []⟩ := by
  decide

/-- C3 amended: on any pass that reaches fleet discovery (the rotation
block succeeded — whether it rotated or not — and the CA field is
present) and discovery fails (no identifiable leader process), the
reconciliation pass aborts with that error before any propagation: the
consumer resources and pods are returned unchanged, only the trust
secret may have been rewritten by the rotation block. -/
theorem reconcile_discovery_failure_aborts (env : CertEnv) (r : Reconciler) (now : Int)
    (st : ClusterState) (s s1 : Secret) (b : Bytes)
    (h1 : st.certSecret = some s)
    (h2 : rotateStep env r.configuration r.ns now s = .ok s1)
    (h3 : getField s1.data serviceAccountRootCAKey = some b)
    (h4 : st.leaderPod = none) :
    reconcile env r now st =
      ⟨{ st with certSecret := some s1 }, none, some "cannot retrieve the leader Pod"⟩ := by
  unfold reconcile
  rw [h1]
  simp only [h2, h3]
  have hop : getOperatorPods { st with certSecret := some s1 } =
      .error "cannot retrieve the leader Pod" := by
    simp [getOperatorPods, h4]
  rw [hop]

/-- Oracle for the C3 witness: generation succeeds. -/
def envC3w : CertEnv :=
  ⟨.ok ⟨0⟩, fun _ _ => .ok ([1], [2]), fun _ => [3], fun _ _ => none,
   fun _ _ _ => true, fun _ => none⟩

/-- Reconciler with auto-generation enabled, for the C3 witness. -/
def rC3w : Reconciler := ⟨"capsule-system", ⟨true, "capsule-tls", "vw", "mw", "tenants"⟩⟩

/-- Bootstrap state for the C3 witness: empty trust secret (so the pass
rotates) and no identifiable leader pod. -/
def stC3w : ClusterState :=
  ⟨some ⟨0, []⟩, some ⟨[], 0⟩, some ⟨[], 0⟩, some ⟨none, 0⟩, none, []⟩

/-- Witness for the amended C3 at a concrete bootstrap state: the pass
rotates the secret, then leader lookup fails and the pass aborts with the
discovery error; the consumer resources and pods are untouched. -/
theorem reconcile_discovery_failure_aborts_witness :
    reconcile envC3w rC3w 0 stC3w =
      ⟨{ stC3w with certSecret := some ⟨0, [(tlsCertKey, [1]), (tlsPrivateKeyKey, [2]),
          (serviceAccountRootCAKey, [3])]⟩ }, none,
       some "cannot retrieve the leader Pod"⟩ :=
  reconcile_discovery_failure_aborts envC3w rC3w 0 stC3w ⟨0, []⟩
    ⟨0, [(tlsCertKey, [1]), (tlsPrivateKeyKey, [2]), (serviceAccountRootCAKey, [3])]⟩
    [3] rfl rfl rfl rfl

/-! ## C4: the requeue arithmetic -/

/-- C4: the reconciliation lookahead is 4 days; when auto-generation is
disabled, no requeue duration is ever produced; after a successful pass
with auto-generation enabled, the requeue duration equals
`(NotAfter - now) - lookahead` for the stored certificate. -/
theorem reconcile_requeue_arithmetic (env : CertEnv) (r : Reconciler) (now : Int)
    (st : ClusterState) :
    certificateReconciliationThreshold = 4 * 24 * 3600 ∧
    (r.configuration.generateCertificates = false →
      (reconcile env r now st).requeueAfter = none) ∧
    (∀ (s : Secret) (c : Certificate),
      r.configuration.generateCertificates = true →
      (reconcile env r now st).error = none →
      (reconcile env r now st).state.certSecret = some s →
      env.getCertificateFromBytes ((getField s.data tlsCertKey).getD []) = some c →
      (reconcile env r now st).requeueAfter =
        some ((c.notAfter - now) - certificateReconciliationThreshold)) := by
  refine ⟨rfl, ?_, ?_⟩
  · intro hgen
    unfold reconcile
    split
    · rfl
    · split
      · rfl
      · split
        · rfl
        · split
          · rfl
          · unfold joinPhase
            split
            · rfl
            · rw [hgen]
              simp
  · intro s c hgen herr hsec hc
    rcases h1 : st.certSecret with _ | s0
    · simp [reconcile, h1] at herr
    rcases h2 : rotateStep env r.configuration r.ns now s0 with e | s1
    · simp [reconcile, h1, h2] at herr
    rcases h3 : getField s1.data serviceAccountRootCAKey with _ | b
    · simp [reconcile, h1, h2, h3] at herr
    rcases h4 : getOperatorPods { st with certSecret := some s1 } with e | targets
    · simp [reconcile, h1, h2, h3, h4] at herr
    have hre : reconcile env r now st =
        joinPhase env r now s1 b targets { st with certSecret := some s1 } := by
      simp [reconcile, h1, h2, h3, h4]
    rw [hre] at herr hsec ⊢
    have hcs : (joinPhase env r now s1 b targets
        { st with certSecret := some s1 }).state.certSecret = some s1 :=
      joinPhase_certSecret env r now s1 b targets { st with certSecret := some s1 }
    obtain rfl : s1 = s := Option.some.inj (hcs.symm.trans hsec)
    rcases hfo : (fanOut r now b targets { st with certSecret := some s1 }).2 with _ | e
    · simp [joinPhase, hfo, hgen, hc]
    · simp [joinPhase, hfo] at herr

/-- Oracle instance for the C4 witness: stored material parses and
validates; the stored leaf certificate expires at Unix second 864000
(10 days). -/
def envC4 : CertEnv :=
  ⟨.ok ⟨0⟩, fun _ _ => .ok ([1], [2]), fun _ => [3],
   fun _ _ => some (⟨864000⟩, ⟨0⟩), fun _ _ _ => true, fun _ => some ⟨864000⟩⟩

/-- Reconciler with auto-generation enabled, for the C4 witness. -/
def rC4 : Reconciler := ⟨"capsule-system", ⟨true, "capsule-tls", "vw", "mw", "tenants"⟩⟩

/-- Reconciler with auto-generation disabled, for the C4 witness. -/
def rOffC4 : Reconciler := ⟨"capsule-system", ⟨false, "capsule-tls", "vw", "mw", "tenants"⟩⟩

/-- The operator pod of the C4 witness state. -/
def podC4 : Pod := ⟨"n", "p", [("app", "c")], [], 0⟩

/-- Fully populated trust secret for the C4 witness. -/
def secC4 : Secret :=
  ⟨0, [(tlsCertKey, [1]), (tlsPrivateKeyKey, [2]), (serviceAccountRootCAKey, [3])]⟩

/-- Healthy cluster state for the C4 witness. -/
def stC4 : ClusterState :=
  ⟨some secC4, some ⟨[], 0⟩, some ⟨[], 0⟩, some ⟨none, 0⟩, some podC4, [podC4]⟩

/-- Witness for C4: a successful pass at `now = 0` over a certificate
with `NotAfter = now + 10 days` requeues after 518400 s = 6 days; with
auto-generation disabled no requeue is produced. -/
theorem reconcile_requeue_arithmetic_witness :
    rC4.configuration.generateCertificates = true ∧
    (reconcile envC4 rC4 0 stC4).error = none ∧
    (reconcile envC4 rC4 0 stC4).requeueAfter = some 518400 ∧
    (518400 : Int) = 6 * 24 * 3600 ∧
    (reconcile envC4 rOffC4 0 stC4).requeueAfter = none := by
  refine ⟨rfl, by decide, ?_, by norm_num, ?_⟩
  · have h := (reconcile_requeue_arithmetic envC4 rC4 0 stC4).2.2 secC4 ⟨864000⟩
      rfl (by decide) (by decide) rfl
    exact h.trans (by norm_num [certificateReconciliationThreshold])
  · exact (reconcile_requeue_arithmetic envC4 rOffC4 0 stC4).2.1 rfl

/-! ## C6: atomic persistence of regenerated material -/

/-- When rotation is required and CA generation fails, the rotation block
surfaces that error. -/
theorem rotateStep_caError (env : CertEnv) (cfg : Configuration) (ns : String) (now : Int)
    (s : Secret) (e : String)
    (h : shouldUpdateCertificate env cfg s = true) (hca : env.generateCA = .error e) :
    rotateStep env cfg ns now s = .error e := by
  simp [rotateStep, h, hca]

/-- When rotation is required and leaf generation fails, the rotation
block surfaces that error. -/
theorem rotateStep_leafError (env : CertEnv) (cfg : Configuration) (ns : String) (now : Int)
    (s : Secret) (ca : CA) (e : String)
    (h : shouldUpdateCertificate env cfg s = true) (hca : env.generateCA = .ok ca)
    (hcrt : env.generateCertificate ca
      ⟨now + certificateValidity, webhookServiceDNS ns⟩ = .error e) :
    rotateStep env cfg ns now s = .error e := by
  simp [rotateStep, h, hca, hcrt]

/-- When rotation is required and both generations succeed, the secret's
data is replaced wholesale with the three fields, metadata preserved. -/
theorem rotateStep_rotates (env : CertEnv) (cfg : Configuration) (ns : String) (now : Int)
    (s : Secret) (ca : CA) (crt key : Bytes)
    (h : shouldUpdateCertificate env cfg s = true) (hca : env.generateCA = .ok ca)
    (hcrt : env.generateCertificate ca
      ⟨now + certificateValidity, webhookServiceDNS ns⟩ = .ok (crt, key)) :
    rotateStep env cfg ns now s = .ok { s with data :=
      [(tlsCertKey, crt), (tlsPrivateKeyKey, key),
       (serviceAccountRootCAKey, env.caCertificatePem ca)] } := by
  simp [rotateStep, h, hca, hcrt]

/-- C6: on a pass that decided to rotate, a CA- or leaf-generation
failure aborts the pass with that error and the whole cluster state —
in particular the trust secret — is returned exactly as it was; on
success all three fields are persisted together in one write that
preserves the secret's other metadata. -/
theorem regeneration_atomic (env : CertEnv) (r : Reconciler) (now : Int)
    (st : ClusterState) (s : Secret)
    (h1 : st.certSecret = some s)
    (h2 : shouldUpdateCertificate env r.configuration s = true) :
    (∀ e, env.generateCA = .error e →
      reconcile env r now st = ⟨st, none, some e⟩) ∧
    (∀ ca e, env.generateCA = .ok ca →
      env.generateCertificate ca
        ⟨now + certificateValidity, webhookServiceDNS r.ns⟩ = .error e →
      reconcile env r now st = ⟨st, none, some e⟩) ∧
    (∀ ca crt key, env.generateCA = .ok ca →
      env.generateCertificate ca
        ⟨now + certificateValidity, webhookServiceDNS r.ns⟩ = .ok (crt, key) →
      (reconcile env r now st).state.certSecret =
        some { s with data := [(tlsCertKey, crt), (tlsPrivateKeyKey, key),
                               (serviceAccountRootCAKey, env.caCertificatePem ca)] }) := by
  refine ⟨?_, ?_, ?_⟩
  · intro e hca
    simp [reconcile, h1, rotateStep_caError env r.configuration r.ns now s e h2 hca]
  · intro ca e hca hcrt
    simp [reconcile, h1,
      rotateStep_leafError env r.configuration r.ns now s ca e h2 hca hcrt]
  · intro ca crt key hca hcrt
    have hrot := rotateStep_rotates env r.configuration r.ns now s ca crt key h2 hca hcrt
    have hg : getField [(tlsCertKey, crt), (tlsPrivateKeyKey, key),
        (serviceAccountRootCAKey, env.caCertificatePem ca)] serviceAccountRootCAKey =
        some (env.caCertificatePem ca) := rfl
    rcases hop : getOperatorPods { st with certSecret := some { s with data :=
        [(tlsCertKey, crt), (tlsPrivateKeyKey, key),
         (serviceAccountRootCAKey, env.caCertificatePem ca)] } } with e | targets
    · simp [reconcile, h1, hrot, hg, hop]
    · simp [reconcile, h1, hrot, hg, hop, joinPhase_certSecret]

/-- Oracle whose CA generation fails, for the C6 witness. -/
def envC6a : CertEnv :=
  ⟨.error "ca boom", fun _ _ => .ok ([1], [2]), fun _ => [3], fun _ _ => none,
   fun _ _ _ => true, fun _ => none⟩

/-- Oracle whose leaf generation fails, for the C6 witness. -/
def envC6b : CertEnv :=
  ⟨.ok ⟨0⟩, fun _ _ => .error "leaf boom", fun _ => [3], fun _ _ => none,
   fun _ _ _ => true, fun _ => none⟩

/-- Oracle whose generations succeed, for the C6 witness. -/
def envC6c : CertEnv :=
  ⟨.ok ⟨0⟩, fun _ _ => .ok ([1], [2]), fun _ => [3], fun _ _ => none,
   fun _ _ _ => true, fun _ => none⟩

/-- Reconciler with auto-generation enabled, for the C6 witness. -/
def rC6 : Reconciler := ⟨"capsule-system", ⟨true, "capsule-tls", "vw", "mw", "tenants"⟩⟩

/-- State whose trust secret is empty (so rotation is required), C6. -/
def stC6 : ClusterState :=
  ⟨some ⟨5, []⟩, some ⟨[], 0⟩, some ⟨[], 0⟩, some ⟨none, 0⟩, none, []⟩

/-- Witness for C6: at a state requiring rotation, each generation
failure leaves the state bit-for-bit intact; on success the secret holds
exactly the three fresh fields with metadata preserved. -/
theorem regeneration_atomic_witness :
    reconcile envC6a rC6 0 stC6 = ⟨stC6, none, some "ca boom"⟩ ∧
    reconcile envC6b rC6 0 stC6 = ⟨stC6, none, some "leaf boom"⟩ ∧
    (reconcile envC6c rC6 0 stC6).state.certSecret =
      some ⟨5, [(tlsCertKey, [1]), (tlsPrivateKeyKey, [2]),
                (serviceAccountRootCAKey, [3])]⟩ := by
  refine ⟨?_, ?_, ?_⟩
  · exact (regeneration_atomic envC6a rC6 0 stC6 ⟨5, []⟩ rfl (by decide)).1 "ca boom" rfl
  · exact (regeneration_atomic envC6b rC6 0 stC6 ⟨5, []⟩ rfl (by decide)).2.1
      ⟨0⟩ "leaf boom" rfl rfl
  · exact (regeneration_atomic envC6c rC6 0 stC6 ⟨5, []⟩ rfl (by decide)).2.2
      ⟨0⟩ [1] [2] rfl rfl

/-! ## C8: the leaf-certificate request -/

/-- C8: the regenerated leaf certificate is requested with expiry
`now + 180 days` and with the internal webhook service DNS name
`capsule-webhook-service.<namespace>.svc` as subject alternative name,
and exactly that certificate and key end up stored in the secret. -/
theorem leaf_certificate_request (env : CertEnv) (r : Reconciler) (now : Int)
    (st : ClusterState) (s : Secret) (ca : CA) (crt key : Bytes)
    (h1 : st.certSecret = some s)
    (h2 : shouldUpdateCertificate env r.configuration s = true)
    (h3 : env.generateCA = .ok ca)
    (h4 : env.generateCertificate ca
      ⟨now + 180 * 24 * 3600, "capsule-webhook-service." ++ r.ns ++ ".svc"⟩ = .ok (crt, key)) :
    certificateValidity = 180 * 24 * 3600 ∧
    webhookServiceDNS r.ns = "capsule-webhook-service." ++ r.ns ++ ".svc" ∧
    (∃ s2 : Secret, (reconcile env r now st).state.certSecret = some s2 ∧
      getField s2.data tlsCertKey = some crt ∧
      getField s2.data tlsPrivateKeyKey = some key) := by
  have hv : certificateValidity = 180 * 24 * 3600 := by norm_num [certificateValidity]
  refine ⟨hv, rfl, ?_⟩
  have h4a : env.generateCertificate ca
      ⟨now + certificateValidity, webhookServiceDNS r.ns⟩ = .ok (crt, key) := by
    rw [hv]
    exact h4
  have hrot := rotateStep_rotates env r.configuration r.ns now s ca crt key h2 h3 h4a
  have hg : getField [(tlsCertKey, crt), (tlsPrivateKeyKey, key),
      (serviceAccountRootCAKey, env.caCertificatePem ca)] serviceAccountRootCAKey =
      some (env.caCertificatePem ca) := rfl
  refine ⟨{ s with data := [(tlsCertKey, crt), (tlsPrivateKeyKey, key),
      (serviceAccountRootCAKey, env.caCertificatePem ca)] }, ?_, rfl, rfl⟩
  rcases hop : getOperatorPods { st with certSecret := some { s with data :=
      [(tlsCertKey, crt), (tlsPrivateKeyKey, key),
       (serviceAccountRootCAKey, env.caCertificatePem ca)] } } with e | targets
  · simp [reconcile, h1, hrot, hg, hop]
  · simp [reconcile, h1, hrot, hg, hop, joinPhase_certSecret]

/-- Oracle for the C8 witness. -/
def envC8 : CertEnv :=
  ⟨.ok ⟨0⟩, fun _ _ => .ok ([1], [2]), fun _ => [3], fun _ _ => none,
   fun _ _ _ => true, fun _ => none⟩

/-- Reconciler for the C8 witness. -/
def rC8 : Reconciler := ⟨"capsule-system", ⟨true, "capsule-tls", "vw", "mw", "tenants"⟩⟩

/-- State whose trust secret is empty (so rotation is required), C8. -/
def stC8 : ClusterState :=
  ⟨some ⟨5, []⟩, some ⟨[], 0⟩, some ⟨[], 0⟩, some ⟨none, 0⟩, none, []⟩

/-- Witness for C8 at a concrete rotation: the validity constant is 180
days, the DNS name is `capsule-webhook-service.capsule-system.svc`, and
the generated material lands in the secret. -/
theorem leaf_certificate_request_witness :
    certificateValidity = 180 * 24 * 3600 ∧
    webhookServiceDNS "capsule-system" = "capsule-webhook-service.capsule-system.svc" ∧
    (∃ s2 : Secret, (reconcile envC8 rC8 0 stC8).state.certSecret = some s2 ∧
      getField s2.data tlsCertKey = some [1] ∧
      getField s2.data tlsPrivateKeyKey = some [2]) := by
  have h := leaf_certificate_request envC8 rC8 0 stC8 ⟨5, []⟩ ⟨0⟩ [1] [2]
    rfl (by decide) rfl rfl
  exact ⟨h.1, by decide, h.2.2⟩

/-! ## C2: idempotence — helper lemmas -/

/-- Writing the same map entry twice is the same as writing it once. -/
theorem setEntry_idem (l : List (String × String)) (k v : String) :
    setEntry (setEntry l k v) k v = setEntry l k v := by
  simp [setEntry, List.filter_append, List.filter_filter]

/-- Stamping a pod twice with the same time is stamping it once. -/
theorem stampPod_idem (t : Int) (p : Pod) : stampPod t (stampPod t p) = stampPod t p := by
  simp [stampPod, setEntry_idem]

/-- Stamping does not change a pod's identity or labels. -/
theorem stampPod_fields (t : Int) (p : Pod) :
    (stampPod t p).ns = p.ns ∧ (stampPod t p).name = p.name ∧
    (stampPod t p).labels = p.labels :=
  ⟨rfl, rfl, rfl⟩

/-- `labelsMatch` only reads the pod's labels. -/
theorem labelsMatch_congr (sel : List (String × String)) (p q : Pod)
    (h : p.labels = q.labels) : labelsMatch sel p = labelsMatch sel q := by
  simp [labelsMatch, h]

/-- Proof device: the pod-store evolution of `updatePods` without the
error bookkeeping. -/
def runPods (t : Int) (ts ps : List Pod) : List Pod :=
  ts.foldl
    (fun cur tgt =>
      match updateOperatorPod t cur tgt with
      | .ok ps2 => ps2
      | .error _ => cur) ps

/-- The error slot of the fold does not influence the store evolution. -/
theorem updatePods_fst (t : Int) (ts : List Pod) :
    ∀ (ps : List Pod) (e0 : Option String),
      (ts.foldl
        (fun acc tgt =>
          match updateOperatorPod t acc.1 tgt with
          | .ok ps2 => (ps2, acc.2)
          | .error e => (acc.1, acc.2 <|> some e)) (ps, e0)).1 = runPods t ts ps := by
  induction ts with
  | nil => intro ps e0; rfl
  | cons tgt ts ih =>
    intro ps e0
    rcases h : updateOperatorPod t ps tgt with e | ps2
    · simpa [runPods, List.foldl_cons, h] using ih ps (e0 <|> some e)
    · simpa [runPods, List.foldl_cons, h] using ih ps2 e0

/-- The first component of `updatePods` is `runPods`. -/
theorem updatePods_eq_runPods (t : Int) (ts ps : List Pod) :
    (updatePods t ts ps).1 = runPods t ts ps :=
  updatePods_fst t ts ps none

/-- A map whose function fixes every member is the identity. -/
theorem map_id_of_mem {α : Type} (l : List α) (f : α → α) (h : ∀ x ∈ l, f x = x) :
    l.map f = l := by
  induction l with
  | nil => rfl
  | cons a l ih =>
    rw [List.map_cons, h a (List.mem_cons_self a l),
      ih fun x hx => h x (List.mem_cons_of_mem a hx)]

/-- Every pod coming out of the fleet-notification fold is a pod that went
in, possibly stamped. -/
theorem runPods_shape (t : Int) (ts : List Pod) :
    ∀ ps : List Pod, ∀ p2 ∈ runPods t ts ps, ∃ p ∈ ps, p2 = p ∨ p2 = stampPod t p := by
  induction ts with
  | nil => intro ps p2 h; exact ⟨p2, h, Or.inl rfl⟩
  | cons tgt ts ih =>
    intro ps p2 h
    unfold runPods at h
    rw [List.foldl_cons] at h
    rcases hs : updateOperatorPod t ps tgt with e | ps2
    · rw [hs] at h
      exact ih ps p2 h
    · rw [hs] at h
      obtain ⟨q, hq, hq2⟩ := ih ps2 p2 h
      have hps2 : ps2 = ps.map
          (fun p => if podMatches tgt.ns tgt.name p then stampPod t p else p) := by
        unfold updateOperatorPod at hs
        split at hs
        · exact (Except.ok.inj hs).symm
        · exact absurd hs (by simp)
      subst hps2
      obtain ⟨p, hp, rfl⟩ := List.mem_map.mp hq
      by_cases hm : podMatches tgt.ns tgt.name p = true
      · rw [if_pos hm] at hq2
        rcases hq2 with rfl | rfl
        · exact ⟨p, hp, Or.inr rfl⟩
        · exact ⟨p, hp, Or.inr (stampPod_idem t p)⟩
      · rw [if_neg hm] at hq2
        exact ⟨p, hp, hq2⟩

/-- Identity and labels of the pods are preserved by the fold. -/
theorem runPods_fields (t : Int) (ts ps : List Pod) (p2 : Pod)
    (h : p2 ∈ runPods t ts ps) :
    ∃ p ∈ ps, p2.ns = p.ns ∧ p2.name = p.name ∧ p2.labels = p.labels := by
  obtain ⟨p, hp, hc⟩ := runPods_shape t ts ps p2 h
  rcases hc with h1 | h1 <;> rw [h1] <;> exact ⟨p, hp, rfl, rfl, rfl⟩

/-- If every pod of the store matching a given identity is stamp-fixed,
this stays true through the whole fold. -/
theorem runPods_preserves_fixed (t : Int) (a c : String) (ts : List Pod) :
    ∀ ps : List Pod, (∀ q ∈ ps, podMatches a c q = true → stampPod t q = q) →
      ∀ p2 ∈ runPods t ts ps, podMatches a c p2 = true → stampPod t p2 = p2 := by
  induction ts with
  | nil => intro ps H p2 h hm; exact H p2 h hm
  | cons tgt ts ih =>
    intro ps H p2 h hm
    unfold runPods at h
    rw [List.foldl_cons] at h
    rcases hs : updateOperatorPod t ps tgt with e | ps2
    · rw [hs] at h
      exact ih ps H p2 h hm
    · rw [hs] at h
      refine ih ps2 ?_ p2 h hm
      have hps2 : ps2 = ps.map
          (fun p => if podMatches tgt.ns tgt.name p then stampPod t p else p) := by
        unfold updateOperatorPod at hs
        split at hs
        · exact (Except.ok.inj hs).symm
        · exact absurd hs (by simp)
      subst hps2
      intro q hq hqm
      obtain ⟨p, hp, rfl⟩ := List.mem_map.mp hq
      by_cases hm2 : podMatches tgt.ns tgt.name p = true
      · rw [if_pos hm2]
        exact stampPod_idem t p
      · rw [if_neg hm2] at hqm ⊢
        exact H p hp hqm

/-- After the fold, every pod matching one of the processed targets is
stamp-fixed. -/
theorem runPods_stamped (t : Int) (ts : List Pod) :
    ∀ ps : List Pod, ∀ q ∈ ts, ∀ p2 ∈ runPods t ts ps,
      podMatches q.ns q.name p2 = true → stampPod t p2 = p2 := by
  induction ts with
  | nil => intro ps q hq; exact absurd hq (List.not_mem_nil q)
  | cons tgt ts ih =>
    intro ps q hq p2 h hm
    unfold runPods at h
    rw [List.foldl_cons] at h
    rcases hs : updateOperatorPod t ps tgt with e | ps2 <;> rw [hs] at h
    · rcases List.mem_cons.mp hq with rfl | hq2
      · have hany : ps.any (podMatches q.ns q.name) = false := by
          unfold updateOperatorPod at hs
          split at hs
          · exact absurd hs (by simp)
          · exact Bool.eq_false_iff.mpr (by assumption)
        refine runPods_preserves_fixed t q.ns q.name ts ps ?_ p2 h hm
        intro x hx hxm
        exact absurd hxm (by simpa using (List.any_eq_false.mp hany) x hx)
      · exact ih ps q hq2 p2 h hm
    · have hps2 : ps2 = ps.map
          (fun p => if podMatches tgt.ns tgt.name p then stampPod t p else p) := by
        unfold updateOperatorPod at hs
        split at hs
        · exact (Except.ok.inj hs).symm
        · exact absurd hs (by simp)
      rcases List.mem_cons.mp hq with rfl | hq2
      · refine runPods_preserves_fixed t q.ns q.name ts ps2 ?_ p2 h hm
        subst hps2
        intro x hx hxm
        obtain ⟨p, hp, rfl⟩ := List.mem_map.mp hx
        by_cases hm2 : podMatches q.ns q.name p = true
        · rw [if_pos hm2]
          exact stampPod_idem t p
        · rw [if_neg hm2] at hxm
          exact absurd hxm hm2
      · exact ih ps2 q hq2 p2 h hm

/-- When every target is present in the store and every pod matching a
target is already stamp-fixed, the fleet-notification fold is a no-op. -/
theorem updatePods_fixed (t : Int) (ts : List Pod) :
    ∀ ps : List Pod,
      (∀ tgt ∈ ts, ps.any (podMatches tgt.ns tgt.name) = true) →
      (∀ tgt ∈ ts, ∀ p ∈ ps, podMatches tgt.ns tgt.name p = true → stampPod t p = p) →
      updatePods t ts ps = (ps, none) := by
  induction ts with
  | nil => intro ps _ _; rfl
  | cons tgt ts ih =>
    intro ps hmem hfix
    have hstep : updateOperatorPod t ps tgt = .ok ps := by
      unfold updateOperatorPod
      rw [if_pos (hmem tgt (List.mem_cons_self tgt ts))]
      congr 1
      refine map_id_of_mem ps _ fun x hx => ?_
      by_cases hm : podMatches tgt.ns tgt.name x = true
      · rw [if_pos hm]
        exact hfix tgt (List.mem_cons_self tgt ts) x hx hm
      · rw [if_neg hm]
    have htail := ih ps
      (fun tgt2 h => hmem tgt2 (List.mem_cons_of_mem tgt h))
      (fun tgt2 h => hfix tgt2 (List.mem_cons_of_mem tgt h))
    unfold updatePods at htail ⊢
    rw [List.foldl_cons, hstep]
    exact htail

/-- Overwriting the bundle of an entry twice equals overwriting it once. -/
theorem bumpWebhook_idem (b : Bytes) (w : Webhook) :
    bumpWebhook b (bumpWebhook b w) = bumpWebhook b w := by
  rcases hs : w.clientConfig.service with _ | srv
  · simp [bumpWebhook, hs]
  · simp [bumpWebhook, hs]

/-- Bundle propagation over a webhook list is idempotent. -/
theorem bumpList_idem (b : Bytes) (l : List Webhook) :
    (l.map (bumpWebhook b)).map (bumpWebhook b) = l.map (bumpWebhook b) := by
  rw [List.map_map]
  have hf : bumpWebhook b ∘ bumpWebhook b = bumpWebhook b := funext (bumpWebhook_idem b)
  rw [hf]

/-- `group.Wait` reports no error iff no task failed. -/
theorem firstErr_eq_none (l : List (Option String)) :
    firstErr l = none ↔ ∀ x ∈ l, x = none := by
  simp [firstErr, List.head?_eq_none_iff, List.filterMap_eq_nil_iff, id]

/-- An errorless task committed its object. -/
theorem applyRes_ok {α : Type} (cur : Option α) (u : Except String α)
    (h : (applyRes cur u).2 = none) : ∃ a, u = .ok a ∧ (applyRes cur u).1 = some a := by
  rcases u with e | a
  · simp [applyRes] at h
  · exact ⟨a, rfl, rfl⟩

/-- Characterize a successful mutating-webhook update. -/
theorem updateMW_ok (b : Bytes) (o : Option MutatingWebhookConfiguration)
    (mwA : MutatingWebhookConfiguration)
    (h : updateMutatingWebhookConfiguration b o = .ok mwA) :
    ∃ mw0, o = some mw0 ∧
      mwA = { mw0 with webhooks := mw0.webhooks.map (bumpWebhook b) } := by
  rcases o with _ | mw0
  · exact absurd h (by simp [updateMutatingWebhookConfiguration])
  · exact ⟨mw0, rfl, (Except.ok.inj h).symm⟩

/-- Characterize a successful validating-webhook update. -/
theorem updateVW_ok (b : Bytes) (o : Option ValidatingWebhookConfiguration)
    (vwA : ValidatingWebhookConfiguration)
    (h : updateValidatingWebhookConfiguration b o = .ok vwA) :
    ∃ vw0, o = some vw0 ∧
      vwA = { vw0 with webhooks := vw0.webhooks.map (bumpWebhook b) } := by
  rcases o with _ | vw0
  · exact absurd h (by simp [updateValidatingWebhookConfiguration])
  · exact ⟨vw0, rfl, (Except.ok.inj h).symm⟩

/-- Characterize a successful CRD update. -/
theorem updateCRD_ok (ns : String) (b : Bytes) (o : Option CustomResourceDefinition)
    (crdA : CustomResourceDefinition)
    (h : updateCustomResourceDefinition ns b o = .ok crdA) :
    ∃ crd0, o = some crd0 ∧
      crdA = { crd0 with conversion := some (conversionBlock ns b) } := by
  rcases o with _ | crd0
  · exact absurd h (by simp [updateCustomResourceDefinition])
  · exact ⟨crd0, rfl, (Except.ok.inj h).symm⟩

/-- Re-updating an already-propagated mutating configuration is a no-op. -/
theorem updateMW_idem (b : Bytes) (mw0 : MutatingWebhookConfiguration) :
    updateMutatingWebhookConfiguration b
      (some { mw0 with webhooks := mw0.webhooks.map (bumpWebhook b) }) =
    .ok { mw0 with webhooks := mw0.webhooks.map (bumpWebhook b) } := by
  simp only [updateMutatingWebhookConfiguration, bumpList_idem]

/-- Re-updating an already-propagated validating configuration is a no-op. -/
theorem updateVW_idem (b : Bytes) (vw0 : ValidatingWebhookConfiguration) :
    updateValidatingWebhookConfiguration b
      (some { vw0 with webhooks := vw0.webhooks.map (bumpWebhook b) }) =
    .ok { vw0 with webhooks := vw0.webhooks.map (bumpWebhook b) } := by
  simp only [updateValidatingWebhookConfiguration, bumpList_idem]

/-- Re-updating an already-converted CRD is a no-op. -/
theorem updateCRD_idem (ns : String) (b : Bytes) (crd0 : CustomResourceDefinition) :
    updateCustomResourceDefinition ns b
      (some { crd0 with conversion := some (conversionBlock ns b) }) =
    .ok { crd0 with conversion := some (conversionBlock ns b) } := rfl

/-- `fanOut` unfolded: the joined error of the four task classes. -/
theorem fanOut_snd (r : Reconciler) (now : Int) (b : Bytes) (targets : List Pod)
    (st1 : ClusterState) :
    (fanOut r now b targets st1).2 = firstErr
      [(applyRes st1.mutating (updateMutatingWebhookConfiguration b st1.mutating)).2,
       (applyRes st1.validating (updateValidatingWebhookConfiguration b st1.validating)).2,
       (applyRes st1.crd (updateCustomResourceDefinition r.ns b st1.crd)).2,
       (updatePods now targets st1.pods).2] := rfl

/-- Second-pass reduction: over a cluster state `F` that an errorless
first pass committed — secret needing no rotation, webhook configurations
and CRD already propagated, pods already stamped at this clock reading —
the reconcile prefix reduces to the join phase and the fan-out is a
no-op. -/
theorem second_pass_reduction (env : CertEnv) (r : Reconciler) (now : Int)
    (sA : Secret) (b : Bytes) (ps0 targets : List Pod) (leader : Pod) (F : ClusterState)
    (mwA mw0 : MutatingWebhookConfiguration) (vwA vw0 : ValidatingWebhookConfiguration)
    (crdA crd0 : CustomResourceDefinition)
    (h2 : shouldUpdateCertificate env r.configuration sA = false)
    (hbun : getField sA.data serviceAccountRootCAKey = some b)
    (hFc : F.certSecret = some sA)
    (hFl : F.leaderPod = some leader)
    (hFm : F.mutating = some mwA)
    (hmwA : mwA = { mw0 with webhooks := mw0.webhooks.map (bumpWebhook b) })
    (hFv : F.validating = some vwA)
    (hvwA : vwA = { vw0 with webhooks := vw0.webhooks.map (bumpWebhook b) })
    (hFcr : F.crd = some crdA)
    (hcrdA : crdA = { crd0 with conversion := some (conversionBlock r.ns b) })
    (hFp : F.pods = runPods now targets ps0)
    (htg : targets = ps0.filter (labelsMatch leader.labels)) :
    reconcile env r now F =
      joinPhase env r now sA b (F.pods.filter (labelsMatch leader.labels)) F ∧
    fanOut r now b (F.pods.filter (labelsMatch leader.labels)) F = (F, none) := by
  have hsame : ({ F with certSecret := some sA } : ClusterState) = F := by
    rw [← hFc]
  constructor
  · have hgo : getOperatorPods F = .ok (F.pods.filter (labelsMatch leader.labels)) := by
      simp [getOperatorPods, hFl]
    simp [reconcile, hFc, rotateStep_skip env r.configuration r.ns now sA h2, hbun,
      hsame, hgo]
  · have hmem2 : ∀ tgt ∈ (runPods now targets ps0).filter (labelsMatch leader.labels),
        (runPods now targets ps0).any (podMatches tgt.ns tgt.name) = true := by
      intro tgt htgt
      exact List.any_eq_true.mpr ⟨tgt, List.mem_of_mem_filter htgt, by simp [podMatches]⟩
    have hfix2 : ∀ tgt ∈ (runPods now targets ps0).filter (labelsMatch leader.labels),
        ∀ p ∈ runPods now targets ps0,
          podMatches tgt.ns tgt.name p = true → stampPod now p = p := by
      intro tgt htgt p hp hpm
      obtain ⟨q, hq, hqns, hqname, hqlab⟩ :=
        runPods_fields now targets ps0 tgt (List.mem_of_mem_filter htgt)
      have hpred : labelsMatch leader.labels tgt = true := List.of_mem_filter htgt
      have hqpred : labelsMatch leader.labels q = true :=
        (labelsMatch_congr leader.labels tgt q hqlab) ▸ hpred
      have hqT : q ∈ targets := by
        rw [htg]
        exact List.mem_filter.mpr ⟨hq, hqpred⟩
      have hpm2 : podMatches q.ns q.name p = true := by
        rw [← hqns, ← hqname]
        exact hpm
      exact runPods_stamped now targets ps0 q hqT p hp hpm2
    have h1m : updateMutatingWebhookConfiguration b F.mutating = .ok mwA := by
      rw [hFm, hmwA]
      exact updateMW_idem b mw0
    have h1v : updateValidatingWebhookConfiguration b F.validating = .ok vwA := by
      rw [hFv, hvwA]
      exact updateVW_idem b vw0
    have h1c : updateCustomResourceDefinition r.ns b F.crd = .ok crdA := by
      rw [hFcr, hcrdA]
      exact updateCRD_idem r.ns b crd0
    have h1p : updatePods now (F.pods.filter (labelsMatch leader.labels)) F.pods =
        (F.pods, none) := by
      rw [hFp]
      exact updatePods_fixed now _ _ hmem2 hfix2
    unfold fanOut
    rw [h1m, h1v, h1c, h1p]
    simp only [applyRes, Prod.mk.injEq]
    constructor
    · rw [← hFm, ← hFv, ← hFcr]
    · rfl

/-- C2 (amended): at an unchanged clock reading, re-running reconciliation
over the state committed by an errorless pass whose resulting trust
material needs no rotation returns the identical pass result: the same
cluster state (no further mutation), the same requeue decision, and no
error. -/
theorem reconcile_idempotent_fixed_clock (env : CertEnv) (r : Reconciler) (now : Int)
    (st : ClusterState) (s1 : Secret)
    (h0 : (reconcile env r now st).error = none)
    (h1 : (reconcile env r now st).state.certSecret = some s1)
    (h2 : shouldUpdateCertificate env r.configuration s1 = false) :
    reconcile env r now ((reconcile env r now st).state) = reconcile env r now st := by
  rcases hsec : st.certSecret with _ | s0
  · simp [reconcile, hsec] at h0
  rcases hrot : rotateStep env r.configuration r.ns now s0 with e | sA
  · simp [reconcile, hsec, hrot] at h0
  rcases hbun : getField sA.data serviceAccountRootCAKey with _ | b
  · simp [reconcile, hsec, hrot, hbun] at h0
  rcases hop : getOperatorPods { st with certSecret := some sA } with e | targets
  · simp [reconcile, hsec, hrot, hbun, hop] at h0
  have hre : reconcile env r now st =
      joinPhase env r now sA b targets { st with certSecret := some sA } := by
    simp [reconcile, hsec, hrot, hbun, hop]
  rw [hre] at h0 h1 ⊢
  have hcs : (joinPhase env r now sA b targets
      { st with certSecret := some sA }).state.certSecret = some sA :=
    joinPhase_certSecret env r now sA b targets { st with certSecret := some sA }
  obtain rfl : sA = s1 := Option.some.inj (hcs.symm.trans h1)
  rcases hfo : (fanOut r now b targets { st with certSecret := some sA }).2 with _ | e
  · have hfo2 := hfo
    rw [fanOut_snd, firstErr_eq_none] at hfo2
    simp only [List.forall_mem_cons, List.forall_mem_nil] at hfo2
    obtain ⟨hmw2, hvw2, hcrd2, hpods2, -⟩ := hfo2
    obtain ⟨mwA, hmwu, hmw1⟩ := applyRes_ok _ _ hmw2
    obtain ⟨mw0, hmw0, hmwA⟩ := updateMW_ok b _ mwA hmwu
    obtain ⟨vwA, hvwu, hvw1⟩ := applyRes_ok _ _ hvw2
    obtain ⟨vw0, hvw0, hvwA⟩ := updateVW_ok b _ vwA hvwu
    obtain ⟨crdA, hcrdu, hcrd1⟩ := applyRes_ok _ _ hcrd2
    obtain ⟨crd0, hcrd0, hcrdA⟩ := updateCRD_ok r.ns b _ crdA hcrdu
    rcases hld : st.leaderPod with _ | leader
    · simp [getOperatorPods, hld] at hop
    rw [← hld]
    have htg : targets = st.pods.filter (labelsMatch leader.labels) := by
      have h9 := hop
      simp [getOperatorPods, hld] at h9
      exact h9.symm
    obtain ⟨F, hFgen⟩ :
        ∃ F, (fanOut r now b targets { st with certSecret := some sA }).1 = F := ⟨_, rfl⟩
    have hFc : F.certSecret = some sA := by
      rw [← hFgen]
      rfl
    have hFl : F.leaderPod = some leader := by
      rw [← hFgen]
      exact hld
    have hFm : F.mutating = some mwA := by
      rw [← hFgen]
      exact hmw1
    have hFv : F.validating = some vwA := by
      rw [← hFgen]
      exact hvw1
    have hFcr : F.crd = some crdA := by
      rw [← hFgen]
      exact hcrd1
    have hFp : F.pods = runPods now targets st.pods := by
      rw [← hFgen]
      exact updatePods_eq_runPods now targets st.pods
    obtain ⟨hpre, hfan⟩ := second_pass_reduction env r now sA b st.pods targets leader F
      mwA mw0 vwA vw0 crdA crd0 h2 hbun hFc hFl hFm hmwA hFv hvwA hFcr hcrdA hFp htg
    rcases hgen : r.configuration.generateCertificates with _ | _
    · have hrun1 : joinPhase env r now sA b targets { st with certSecret := some sA } =
          ⟨F, none, none⟩ := by
        unfold joinPhase
        rw [hfo, hFgen, hgen]
        simp
      have hrun2 : reconcile env r now F = ⟨F, none, none⟩ := by
        rw [hpre]
        unfold joinPhase
        rw [hfan, hgen]
        simp
      rw [hrun1]
      exact hrun2
    · rcases hpar : env.getCertificateFromBytes ((getField sA.data tlsCertKey).getD [])
        with _ | c
      · have hbad : (joinPhase env r now sA b targets
            { st with certSecret := some sA }).error = some "cannot parse certificate" := by
          unfold joinPhase
          rw [hfo, hgen]
          simp [hpar]
        exact absurd (hbad.symm.trans h0) (by simp)
      · have hrun1 : joinPhase env r now sA b targets { st with certSecret := some sA } =
            ⟨F, some ((c.notAfter - now) - certificateReconciliationThreshold), none⟩ := by
          unfold joinPhase
          rw [hfo, hFgen, hgen]
          simp [hpar]
        have hrun2 : reconcile env r now F =
            ⟨F, some ((c.notAfter - now) - certificateReconciliationThreshold), none⟩ := by
          rw [hpre]
          unfold joinPhase
          rw [hfan, hgen]
          simp [hpar]
        rw [hrun1]
        exact hrun2
  · simp [joinPhase, hfo] at h0

/-- Oracle for the C2 instances (auto-generation will be disabled, so the
certificate functions are never consulted). -/
def envC2 : CertEnv :=
  ⟨.ok ⟨0⟩, fun _ _ => .ok ([1], [2]), fun _ => [3], fun _ _ => none,
   fun _ _ _ => true, fun _ => none⟩

/-- Reconciler with auto-generation disabled, for the C2 instances. -/
def rC2 : Reconciler := ⟨"n", ⟨false, "capsule-tls", "vw", "mw", "tenants"⟩⟩

/-- The single operator pod of the C2 instances. -/
def podC2 : Pod := ⟨"n", "p", [("app", "c")], [], 0⟩

/-- Healthy cluster state for the C2 instances. -/
def stC2 : ClusterState :=
  ⟨some ⟨0, [(serviceAccountRootCAKey, [7])]⟩, some ⟨[], 0⟩, some ⟨[], 0⟩,
   some ⟨none, 0⟩, some podC2, [podC2]⟩

/-- Counterexample to C2 as stated: a second reconciliation run at a later
clock reading (time 1 after time 0) succeeds but does mutate state — the
fleet-notification update rewrites the pod freshness annotation with the
new timestamp, so the second run is not free of state mutations. -/
theorem reconcile_second_run_mutates :
    (reconcile envC2 rC2 1 (reconcile envC2 rC2 0 stC2).state).error = none ∧
    (reconcile envC2 rC2 1 (reconcile envC2 rC2 0 stC2).state).state ≠
      (reconcile envC2 rC2 0 stC2).state := by
  decide

/-- Witness for the amended C2 at a concrete state: at an unchanged clock
reading the second run returns the identical pass result. -/
theorem reconcile_idempotent_fixed_clock_witness :
    reconcile envC2 rC2 0 ((reconcile envC2 rC2 0 stC2).state) =
      reconcile envC2 rC2 0 stC2 :=
  reconcile_idempotent_fixed_clock envC2 rC2 0 stC2
    ⟨0, [(serviceAccountRootCAKey, [7])]⟩ (by decide) (by decide) (by decide)

end Capsule
